import Mathlib

/-!
Verification of the chipwhisperer glitch-campaign core against its
natural-language specification.

The development shallowly embeds:
* `OpenADC.capture` / `OpenADC._capture_read` / `OpenADC.arm` / `OpenADC.dis`
  (src/software/chipwhisperer/capture/scopes/OpenADC.py),
* `OpenADC.default_setup` (same file, the non-Husky branch driven by the
  repository's CWLITEARM scripts),
* the sweep-loop bodies and helper functions of
  src/hardware/victims/firmware/simpleserial-glitch/glitch_101.py and
  glitch_201.py (`reboot_flush`, `glitch_loop`, the per-trial classify step),
* the sweep generator, modelled from the specification because
  `GlitchController` is not part of the sources under verification.

Hardware and transport effects (USB results, ADC data, clock-lock status,
target responses) are passed in explicitly as environment values; machine
state mutated by the Python code becomes explicit state records.
-/

namespace CW

/-- Session state of the `OpenADC` scope object: the connection flags
(`_is_connected`, `connectStatus`), the capture configuration read by
`capture` (`adc.samples`), the capture buffer (`data_points`), and the
hardware effects of arming (`sc.arm()` sets the hardware armed flag,
`sc.startCaptureThread()` starts the read pump). -/
structure Scope where
  is_connected : Bool
  connectStatus : Bool
  adc_samples : Nat
  data_points : List Int
  hwArmed : Bool
  threadRunning : Bool
deriving DecidableEq, Repr

/-- `OpenADC.dis`: releases the connection; both connection flags drop to
`false` (lines 421-446 of OpenADC.py, reduced to the session flags). -/
def dis (s : Scope) : Scope :=
  { s with is_connected := false, connectStatus := false }

/-- Hardware results consumed by one `capture` call: whether
`self.sc.capture(...)` reported a trigger timeout, and the sample buffer
returned by `self.sc.readData(num_points)`. -/
structure CaptureEnv where
  scCaptureTimedOut : Bool
  scReadData : List Int
deriving DecidableEq, Repr

/-- `OpenADC._capture_read` (OpenADC.py lines 479-490): stores the data read
from the hardware into `self.data_points`, then returns `True` exactly when
fewer (or more) points than `num_points = self.adc.samples` were retrieved. -/
def _capture_read (env : CaptureEnv) (s : Scope) : Bool × Scope :=
  let s' := { s with data_points := env.scReadData }
  if s'.data_points.length ≠ s.adc_samples then (true, s') else (false, s')

/-- `OpenADC.capture` (OpenADC.py lines 493-533), on the non-Husky,
non-stream path taken by the repository's CWLITEARM scripts:
`a = self.sc.capture(...)`, `b = self._capture_read(self.adc.samples)`,
return `a or b`. -/
def capture (env : CaptureEnv) (s : Scope) : Bool × Scope :=
  let a := env.scCaptureTimedOut
  let b := _capture_read env s
  (a || b.1, b.2)

/-- Which of the four arming calls inside `OpenADC.arm`'s `try` block raises
an I/O error: `0` = `advancedSettings.armPreScope()`, `1` = `self.sc.arm()`,
`2` = `advancedSettings.armPostScope()`, `3` = `self.sc.startCaptureThread()`;
`none` means all four succeed. -/
structure ArmEnv where
  failAt : Option Nat
deriving DecidableEq, Repr

/-- Errors surfaced by `OpenADC.arm`: the `OSError("Scope is not
connected...")` raised before the `try` block, and a propagated lower-level
I/O exception. -/
inductive ArmError where
  | notConnected
  | ioError
deriving DecidableEq, Repr

/-- `OpenADC.arm` (OpenADC.py lines 448-477): raises `notConnected` (with no
side effect) when `self._is_connected is False`; otherwise runs the four
arming calls, and on an exception from any of them calls `self.dis()` and
re-raises. Side effects performed before the failing call persist. -/
def arm (env : ArmEnv) (s : Scope) : Scope × Option ArmError :=
  if s.is_connected = false then (s, some .notConnected)
  else
    match env.failAt with
    | some 0 => (dis s, some .ioError)
    | some 1 => (dis s, some .ioError)
    | some 2 => (dis { s with hwArmed := true }, some .ioError)
    | some 3 => (dis { s with hwArmed := true }, some .ioError)
    | _ => ({ s with hwArmed := true, threadRunning := true }, none)

/-- The configuration values written by `OpenADC.default_setup` on the
non-Husky path: gain, ADC samples/offset/trigger mode, clock generator
frequency (Hz), trigger routing, target-io pin muxing, hs2 output, CDC
settings, and the ADC clock source. -/
structure Config where
  gain_db : Nat
  adc_samples : Nat
  adc_offset : Nat
  basic_mode : String
  clkgen_freq : Nat
  triggers : String
  tio1 : String
  tio2 : String
  hs2 : String
  cdc_settings : Nat
  adc_src : String
deriving DecidableEq, Repr

/-- Error raised by `default_setup` when the clock-lock retry bound is
exhausted (the `OSError("Could not lock DCM...")` of OpenADC.py line 242). -/
inductive SetupError where
  | clockLockFailed
deriving DecidableEq, Repr

/-- Hardware behaviour consumed by one `default_setup` call: the value of
`self.clock.clkgen_locked` at the n-th poll of the retry loop, and the
configuration state the device presents after the `self.dis(); self.con()`
reconnect performed on the fifth failed attempt. -/
structure SetupEnv where
  lockedAt : Nat → Bool
  connConfig : Config

/-- The block of assignments at the top of `default_setup`
(OpenADC.py lines 186-196). -/
def applyBaseline (c : Config) : Config :=
  { c with
    gain_db := 25, adc_samples := 5000, adc_offset := 0,
    basic_mode := "rising_edge", clkgen_freq := 7370000, triggers := "tio4",
    tio1 := "serial_rx", tio2 := "serial_tx", hs2 := "clkgen",
    cdc_settings := 0 }

/-- The re-application of settings inside the `count == 5` reconnect branch
(OpenADC.py lines 229-239). Note it does not rewrite `cdc_settings`. -/
def applyRetrySettings (c : Config) : Config :=
  { c with
    gain_db := 25, adc_samples := 5000, adc_offset := 0,
    basic_mode := "rising_edge", clkgen_freq := 7370000, triggers := "tio4",
    adc_src := "clkgen_x4", tio1 := "serial_rx", tio2 := "serial_tx",
    hs2 := "clkgen" }

/-- The `while not self.clock.clkgen_locked` retry loop of `default_setup`
(OpenADC.py lines 218-242): poll the lock, and on failure reset the DCMs and
bump `count`; at `count == 5` reconnect and re-apply the settings; past
`count > 10` raise. `count` is the number of failed polls so far. -/
def dsLoop (env : SetupEnv) (c : Config) (count : Nat) :
    Except SetupError Config :=
  if env.lockedAt count then .ok c
  else
    let c' := if count + 1 = 5 then applyRetrySettings env.connConfig else c
    if 10 < count + 1 then .error .clockLockFailed
    else dsLoop env c' (count + 1)
termination_by 11 - count
decreasing_by simp_wf; omega

/-- `OpenADC.default_setup` (OpenADC.py lines 170-242) on the non-Husky path
driven by the repository's CWLITEARM scripts: apply the baseline table, set
`clock.adc_src = "clkgen_x4"`, then run the clock-lock retry loop. -/
def default_setup (env : SetupEnv) (c : Config) : Except SetupError Config :=
  dsLoop env { applyBaseline c with adc_src := "clkgen_x4" } 0

/-- The fully determined configuration `default_setup` establishes before
polling the clock lock. -/
def baselineLite : Config :=
  { gain_db := 25, adc_samples := 5000, adc_offset := 0,
    basic_mode := "rising_edge", clkgen_freq := 7370000, triggers := "tio4",
    tio1 := "serial_rx", tio2 := "serial_tx", hs2 := "clkgen",
    cdc_settings := 0, adc_src := "clkgen_x4" }

/-- Levels driven onto the target reset line `scope.io.nrst` by
`reboot_flush`: Python `False` (drive low) and `"high_z"` (release). -/
inductive NrstLevel where
  | low
  | highZ
deriving DecidableEq, Repr

/-- Observable hardware actions performed by `reboot_flush`, in order. -/
inductive HwAction where
  | setNrst (v : NrstLevel)
  | sleepMs (ms : Nat)
  | flushTarget
deriving DecidableEq, Repr

/-- Combined state touched by the sweep scripts' helper functions: the scope
session, the reset line level, and the target's buffered serial data. -/
structure World where
  scope : Scope
  nrst : NrstLevel
  targetBuf : List Nat
deriving DecidableEq, Repr

/-- `reboot_flush` (glitch_101.py / glitch_201.py lines 9-14): drive
`scope.io.nrst` low, sleep 0.05 s, release it to `"high_z"`, sleep 0.05 s,
then `target.flush()`. Returns the new state and the ordered action trace. -/
def reboot_flush (w : World) : World × List HwAction :=
  ({ w with nrst := .highZ, targetBuf := [] },
   [.setNrst .low, .sleepMs 50, .setNrst .highZ, .sleepMs 50, .flushTarget])

/-- The dictionary returned by `target.simpleserial_read_witherrors`:
frame validity, the decoded payload (absent on some invalid frames), the
raw serial bytes, and the device status byte `rv`. -/
structure SSResp where
  valid : Bool
  payload : Option (List Nat)
  full_response : List Nat
  rv : Nat
deriving DecidableEq, Repr

/-- Runtime error class of the embedded Python fragment: referencing a local
variable that was never assigned. -/
inductive PyError where
  | unboundLocal
deriving DecidableEq, Repr

/-- The local variables of `glitch_loop`; each is `none` until the Python
assignment that binds it has executed. -/
structure GLLocals where
  response : Option (Option (List Nat))
  raw_serial : Option (List Nat)
  error_code : Option Nat

/-- `glitch_loop` (glitch_101.py / glitch_201.py lines 16-26): reads a
response, assigns `response`, `raw_serial` and `error_code` only under
`if valid:`, then unconditionally returns the three locals — so evaluating
the return expression fails when any of them is unbound. -/
def glitch_loop (val : SSResp) :
    Except PyError (Option (List Nat) × List Nat × Nat) :=
  let env : GLLocals :=
    if val.valid then
      { response := some val.payload, raw_serial := some val.full_response,
        error_code := some val.rv }
    else { response := none, raw_serial := none, error_code := none }
  match env.response, env.raw_serial, env.error_code with
  | some r, some s, some e => .ok (r, s, e)
  | _, _, _ => .error .unboundLocal

/-- Outcome groups of the campaign's `GlitchController`
(`groups=["success", "reset", "normal"]`). -/
inductive Group where
  | success
  | reset
  | normal
deriving DecidableEq, Repr

/-- What one iteration of a sweep script's main loop records: the `gc.add`
calls in order, and how many times `reboot_flush`, `scope.arm()` and
`scope.capture()` ran. -/
structure TrialLog where
  outcomes : List Group
  reboots : Nat
  arms : Nat
  captures : Nat
deriving DecidableEq, Repr

/-- Response read by glitch_101.py (`simpleserial_read_witherrors('r', 4)`):
validity plus an optional 4-byte payload. -/
structure Resp4 where
  valid : Bool
  payload : Option (Nat × Nat × Nat × Nat)
deriving DecidableEq, Repr

/-- `struct.unpack("<I", payload)[0]`: the 4 payload bytes as a
little-endian 32-bit unsigned integer. -/
def le32 (p : Nat × Nat × Nat × Nat) : Nat :=
  p.1 + 256 * p.2.1 + 65536 * p.2.2.1 + 16777216 * p.2.2.2

/-- Per-trial hardware observations of one glitch_101.py loop iteration:
`scope.adc.state` at the pre-check, the `scope.capture()` timeout flag
`ret`, and the target response `val`. -/
structure Trial101 where
  adcState : Bool
  capTimeout : Bool
  resp : Resp4
deriving DecidableEq, Repr

/-- The body of glitch_101.py's main loop (lines 57-109). If the trigger is
still high the trial is recorded `reset` and `reboot_flush` runs — and the
loop then still arms and captures. On capture timeout: `reset` plus
`reboot_flush`. Otherwise: invalid response → `reset` (no recovery); absent
payload → `continue` (nothing recorded); else `success` when the unpacked
counter differs from 2500, `normal` when it equals 2500. -/
def trialStep101 (t : Trial101) : TrialLog :=
  let pre : List Group × Nat := if t.adcState then ([.reset], 1) else ([], 0)
  let post : List Group × Nat :=
    if t.capTimeout then ([.reset], 1)
    else if t.resp.valid = false then ([.reset], 0)
    else
      match t.resp.payload with
      | none => ([], 0)
      | some p => if le32 p ≠ 2500 then ([.success], 0) else ([.normal], 0)
  { outcomes := pre.1 ++ post.1, reboots := pre.2 + post.2,
    arms := 1, captures := 1 }

/-- glitch_101.py's campaign: one loop iteration per sweep setting; the loop
never halts early. -/
def campaign101 (ts : List Trial101) : List TrialLog :=
  ts.map trialStep101

/-- Response read by glitch_201.py (`simpleserial_read_witherrors('r', 1)`):
validity plus an optional single payload byte. -/
structure Resp1 where
  valid : Bool
  payload : Option Nat
deriving DecidableEq, Repr

/-- Per-trial hardware observations of one glitch_201.py loop iteration. -/
structure Trial201 where
  adcState : Bool
  capTimeout : Bool
  resp : Resp1
deriving DecidableEq, Repr

/-- The body of glitch_201.py's main loop (lines 56-111); identical control
flow to glitch_101.py except the success predicate: `retVal =
val['payload'][0]` and the trial is `success` exactly when that first byte
is truthy (nonzero). -/
def trialStep201 (t : Trial201) : TrialLog :=
  let pre : List Group × Nat := if t.adcState then ([.reset], 1) else ([], 0)
  let post : List Group × Nat :=
    if t.capTimeout then ([.reset], 1)
    else if t.resp.valid = false then ([.reset], 0)
    else
      match t.resp.payload with
      | none => ([], 0)
      | some b => if b ≠ 0 then ([.success], 0) else ([.normal], 0)
  { outcomes := pre.1 ++ post.1, reboots := pre.2 + post.2,
    arms := 1, captures := 1 }

/-- glitch_201.py's campaign: one loop iteration per sweep setting. -/
def campaign201 (ts : List Trial201) : List TrialLog :=
  ts.map trialStep201

/-- Modelled from the spec: the missing
`chipwhisperer.common.results.glitch.GlitchController` axis — a named
numeric parameter with an inclusive `[low, high]` range (`gc.set_range`)
and a step size (`gc.set_global_step`). -/
structure GlitchParameter where
  low : Int
  high : Int
  step : Int
deriving DecidableEq, Repr

/-- Modelled from the spec: axis cardinality
`floor((high - low) / step) + 1`. -/
def axisCard (a : GlitchParameter) : Nat :=
  ((a.high - a.low) / a.step).toNat + 1

/-- Modelled from the spec: the values an axis takes, `low, low + step, ...`
up to its cardinality. -/
def axisValues (a : GlitchParameter) : List Int :=
  (List.range (axisCard a)).map (fun i : Nat => a.low + (i : Int) * a.step)

/-- Modelled from the spec: the missing `gc.glitch_values()` generator —
the full Cartesian product of the axes in fixed nested order, the first
axis varying slowest. -/
def glitch_values : List GlitchParameter → List (List Int)
  | [] => [[]]
  | a :: rest =>
    (axisValues a).flatMap
      (fun v => (glitch_values rest).map (fun t => v :: t))

/-- A concrete setting is within an axis's declared inclusive bounds. -/
def inBounds (a : GlitchParameter) (v : Int) : Prop :=
  a.low ≤ v ∧ v ≤ a.high

end CW

namespace CW

/-- C1 counterexample input: a connected, armed scope expecting 5 samples. -/
def c1Scope : Scope :=
  { is_connected := true, connectStatus := true, adc_samples := 5,
    data_points := [], hwArmed := true, threadRunning := true }

/-- C1 counterexample input: a pure trigger timeout (the full 5 samples were
still read back). -/
def c1TimeoutEnv : CaptureEnv :=
  { scCaptureTimedOut := true, scReadData := [0, 0, 0, 0, 0] }

/-- C1 counterexample input: a pure short read (trigger arrived, but only 3
of the 5 requested samples were retrieved). -/
def c1ShortEnv : CaptureEnv :=
  { scCaptureTimedOut := false, scReadData := [0, 0, 0] }

/-- C1 (counterexample): the claim says `capture` returns a timeout
indication on timeout and a *distinct* short-read indication on a short
read. On the code the two indications coincide: a pure timeout and a pure
short read both make `capture` return `true` — the short-read indication is
not distinct from the timeout indication. -/
theorem capture_shortread_indication_not_distinct :
    c1TimeoutEnv.scCaptureTimedOut = true ∧
    c1TimeoutEnv.scReadData.length = c1Scope.adc_samples ∧
    c1ShortEnv.scCaptureTimedOut = false ∧
    c1ShortEnv.scReadData.length < c1Scope.adc_samples ∧
    (capture c1TimeoutEnv c1Scope).1 = (capture c1ShortEnv c1Scope).1 := by
  decide

/-- C1 (amended): `capture` returns `true` (a non-raising indication) exactly
when the trigger timed out or fewer samples than requested were retrieved;
the captured buffer is stored in `data_points` rather than returned; and no
outcome — timeout, short read or success — changes the connection flags or
disconnects the session. -/
theorem capture_timeout_shortread_amended (env : CaptureEnv) (s : Scope) :
    ((capture env s).1 = true ↔
      (env.scCaptureTimedOut = true ∨ env.scReadData.length ≠ s.adc_samples)) ∧
    (capture env s).2.data_points = env.scReadData ∧
    (capture env s).2.is_connected = s.is_connected ∧
    (capture env s).2.connectStatus = s.connectStatus ∧
    (capture env s).2.adc_samples = s.adc_samples ∧
    (capture env s).2.hwArmed = s.hwArmed := by
  unfold capture _capture_read
  by_cases h : env.scReadData.length = s.adc_samples <;>
    simp [h]

/-- C7 counterexample input: a freshly connected, not-yet-armed scope. -/
def c7Scope : Scope :=
  { is_connected := true, connectStatus := true, adc_samples := 5000,
    data_points := [], hwArmed := false, threadRunning := false }

/-- C7 counterexample input: the first arming call
(`advancedSettings.armPreScope()`) raises an I/O error. -/
def c7FailEnv : ArmEnv := { failAt := some 0 }

/-- C7 (counterexample): the claim says a lower-level I/O failure during
arming transitions the session to `Faulted` — a state the spec keeps
distinct from `Disconnected` (its only exit is an explicit `disconnect()`).
On the code, `arm` catches the exception, calls `self.dis()` and re-raises:
at this concrete input the resulting session is exactly the disconnected
session (both connection flags `false`), not a faulted-but-not-disconnected
one. -/
theorem arm_io_failure_disconnects :
    c7Scope.is_connected = true ∧
    arm c7FailEnv c7Scope = (dis c7Scope, some ArmError.ioError) ∧
    (arm c7FailEnv c7Scope).1.is_connected = false ∧
    (arm c7FailEnv c7Scope).1.connectStatus = false := by
  decide

/-- C7 (amended): `arm` on a session that is not connected always fails with
the not-connected error and performs no arming side effects (the session is
returned unchanged); `arm` on a connected session, when any of the four
lower-level arming calls raises, propagates the error rather than silently
succeeding and leaves the session disconnected (the result of `dis`), never
reporting success. -/
theorem arm_not_connected_and_io_failure :
    (∀ (env : ArmEnv) (s : Scope), s.is_connected = false →
      arm env s = (s, some ArmError.notConnected)) ∧
    (∀ (env : ArmEnv) (s : Scope) (k : Nat), s.is_connected = true →
      env.failAt = some k → k < 4 →
      (arm env s).2 = some ArmError.ioError ∧
      (arm env s).1.is_connected = false ∧
      (arm env s).1.connectStatus = false) := by
  constructor
  · intro env s h
    simp [arm, h]
  · intro env s k hc hf hk
    interval_cases k <;>
      simp [arm, hc, hf, dis]

/-- C7 witness: instantiates each conjunct of the amended theorem at a
concrete input. -/
theorem arm_not_connected_and_io_failure_witness :
    arm { failAt := none } (dis c7Scope) =
      (dis c7Scope, some ArmError.notConnected) ∧
    (arm c7FailEnv c7Scope).2 = some ArmError.ioError := by
  exact ⟨arm_not_connected_and_io_failure.1 { failAt := none } (dis c7Scope) rfl,
    (arm_not_connected_and_io_failure.2 c7FailEnv c7Scope 0 rfl rfl (by decide)).1⟩

/-- All configuration fields are overwritten before the retry loop starts:
the state entering the loop does not depend on the prior configuration. -/
theorem applyBaseline_adc_src (c : Config) :
    { applyBaseline c with adc_src := "clkgen_x4" } = baselineLite := rfl

/-- If every clock-lock poll up to index 10 fails, the retry loop raises
`clockLockFailed`, regardless of the configuration it carries. -/
theorem dsLoop_locked_false (env : SetupEnv)
    (h : ∀ n, n ≤ 10 → env.lockedAt n = false) :
    ∀ (k count : Nat) (c : Config), count ≤ 10 → 10 - count ≤ k →
      dsLoop env c count = .error .clockLockFailed := by
  intro k
  induction k with
  | zero =>
    intro count c hcount hk
    have h10 : count = 10 := by omega
    subst h10
    rw [dsLoop]
    simp [h 10 (by omega)]
  | succ k ih =>
    intro count c hcount hk
    by_cases hc10 : count = 10
    · subst hc10
      rw [dsLoop]
      simp [h 10 (by omega)]
    · rw [dsLoop]
      have hlt : ¬ 10 < count + 1 := by omega
      simp only [h count hcount, Bool.false_eq_true, if_false, hlt]
      exact ih (count + 1) _ (by omega) (by omega)

/-- C8: `default_setup` is idempotent — its result is a function of the
hardware environment alone, independent of the configuration it starts
from, so a second application returns exactly the state the first one
established; when the clock locks it converges to the fixed baseline table;
and clock-lock acquisition is retried at most a bounded number of times
(eleven failed polls), after which it fails with `clockLockFailed`. -/
theorem default_setup_idempotent_bounded_retry :
    (∀ (env : SetupEnv) (c c' : Config),
      default_setup env c = default_setup env c') ∧
    (∀ (env : SetupEnv) (c : Config), env.lockedAt 0 = true →
      default_setup env c = .ok baselineLite) ∧
    (∀ (env : SetupEnv) (c : Config),
      (∀ n, n ≤ 10 → env.lockedAt n = false) →
      default_setup env c = .error .clockLockFailed) := by
  refine ⟨?_, ?_, ?_⟩
  · intro env c c'
    unfold default_setup
    rw [applyBaseline_adc_src, applyBaseline_adc_src]
  · intro env c h
    unfold default_setup
    rw [applyBaseline_adc_src, dsLoop]
    simp [h]
  · intro env c h
    unfold default_setup
    exact dsLoop_locked_false env h 10 0 _ (by omega) (by omega)

/-- C8 environment where the clock never locks. -/
def c8EnvStuck : SetupEnv :=
  { lockedAt := fun _ => false, connConfig := baselineLite }

/-- C8 environment where the clock locks at the first poll. -/
def c8EnvLocked : SetupEnv :=
  { lockedAt := fun _ => true, connConfig := baselineLite }

/-- C8 witness: instantiates every conjunct of the theorem at concrete
inputs, discharging each hypothesis there. -/
theorem default_setup_idempotent_bounded_retry_witness :
    default_setup c8EnvStuck baselineLite =
      default_setup c8EnvStuck (applyBaseline baselineLite) ∧
    default_setup c8EnvLocked baselineLite = .ok baselineLite ∧
    default_setup c8EnvStuck baselineLite = .error .clockLockFailed :=
  ⟨default_setup_idempotent_bounded_retry.1 c8EnvStuck baselineLite
      (applyBaseline baselineLite),
   default_setup_idempotent_bounded_retry.2.1 c8EnvLocked baselineLite rfl,
   default_setup_idempotent_bounded_retry.2.2 c8EnvStuck baselineLite
      (fun _ _ => rfl)⟩

/-- C9: `reboot_flush` drives the target reset line low, releases it to
`high_z`, with a fixed 50 ms settle delay on each side (tens of
milliseconds: every sleep in its trace is at least 10 ms and under 100 ms),
then flushes the buffered target serial data — and it leaves the scope
session's own lifecycle state (connection flags, armed flags and capture
configuration) completely unchanged. -/
theorem reboot_flush_actions_frame (w : World) :
    (reboot_flush w).2 =
      [HwAction.setNrst NrstLevel.low, HwAction.sleepMs 50,
       HwAction.setNrst NrstLevel.highZ, HwAction.sleepMs 50,
       HwAction.flushTarget] ∧
    (∀ ms, HwAction.sleepMs ms ∈ (reboot_flush w).2 → 10 ≤ ms ∧ ms < 100) ∧
    (reboot_flush w).1.scope = w.scope ∧
    (reboot_flush w).1.nrst = NrstLevel.highZ ∧
    (reboot_flush w).1.targetBuf = [] := by
  refine ⟨rfl, ?_, rfl, rfl, rfl⟩
  intro ms h
  simp only [reboot_flush, List.mem_cons, List.not_mem_nil, or_false] at h
  rcases h with h | h | h | h | h <;> first
    | (cases h; omega)
    | cases h

/-- C10: `glitch_loop` returns the `(response, raw_serial, error_code)`
triple exactly when the target response has `valid=true`; on every response
with `valid=false` the return statement reads locals that were never
assigned, so the call fails with an unbound-local error instead of
returning. -/
theorem glitch_loop_valid_only (val : SSResp) :
    glitch_loop val =
      cond val.valid (.ok (val.payload, val.full_response, val.rv))
        (.error PyError.unboundLocal) := by
  cases h : val.valid <;> simp [glitch_loop, h]

/-- C3: for a trial with a clean pre-check, a completed capture, a valid
response and a present payload, glitch_101.py classifies `success` exactly
when the little-endian payload counter differs from the baseline 2500 and
`normal` otherwise — a baseline-valued payload is never classified
`success`; glitch_201.py classifies `success` exactly when the first
payload byte is nonzero and `normal` otherwise. -/
theorem classify_success_predicate :
    (∀ (t : Trial101) (p : Nat × Nat × Nat × Nat),
      t.adcState = false → t.capTimeout = false → t.resp.valid = true →
      t.resp.payload = some p →
      (trialStep101 t).outcomes =
        [if le32 p ≠ 2500 then Group.success else Group.normal] ∧
      (le32 p = 2500 → Group.success ∉ (trialStep101 t).outcomes)) ∧
    (∀ (t : Trial201) (b : Nat),
      t.adcState = false → t.capTimeout = false → t.resp.valid = true →
      t.resp.payload = some b →
      (trialStep201 t).outcomes =
        [if b ≠ 0 then Group.success else Group.normal] ∧
      (b = 0 → Group.success ∉ (trialStep201 t).outcomes)) := by
  constructor
  · intro t p h1 h2 h3 h4
    constructor
    · by_cases hp : le32 p = 2500 <;>
        simp [trialStep101, h1, h2, h3, h4, hp]
    · intro hp
      simp [trialStep101, h1, h2, h3, h4, hp]
  · intro t b h1 h2 h3 h4
    constructor
    · by_cases hb : b = 0 <;>
        simp [trialStep201, h1, h2, h3, h4, hb]
    · intro hb
      simp [trialStep201, h1, h2, h3, h4, hb]

/-- C3 witness: a baseline payload (2500 = 196 + 256·9) classifies `normal`
in glitch_101.py; a nonzero status byte classifies `success` in
glitch_201.py. -/
theorem classify_success_predicate_witness :
    (trialStep101 ⟨false, false, ⟨true, some (196, 9, 0, 0)⟩⟩).outcomes =
      [Group.normal] ∧
    Group.success ∉
      (trialStep101 ⟨false, false, ⟨true, some (196, 9, 0, 0)⟩⟩).outcomes ∧
    (trialStep201 ⟨false, false, ⟨true, some 1⟩⟩).outcomes =
      [Group.success] := by
  have h1 := classify_success_predicate.1 ⟨false, false, ⟨true, some (196, 9, 0, 0)⟩⟩
    (196, 9, 0, 0) rfl rfl rfl rfl
  have h2 := classify_success_predicate.2 ⟨false, false, ⟨true, some 1⟩⟩
    1 rfl rfl rfl rfl
  refine ⟨?_, h1.2 (by decide), ?_⟩
  · rw [h1.1]; decide
  · rw [h2.1]; decide

/-- C4: a trial whose capture reports a timeout (and whose pre-check was
clean) is classified exactly `reset`, runs exactly one `reboot_flush`
recovery, still arms and captures once like every trial, and the campaign
is never halted: both campaigns produce one log per sweep setting. -/
theorem timeout_trial_reset_single_recovery :
    (∀ t : Trial101, t.adcState = false → t.capTimeout = true →
      trialStep101 t =
        { outcomes := [Group.reset], reboots := 1, arms := 1, captures := 1 }) ∧
    (∀ t : Trial201, t.adcState = false → t.capTimeout = true →
      trialStep201 t =
        { outcomes := [Group.reset], reboots := 1, arms := 1, captures := 1 }) ∧
    (∀ ts : List Trial101, (campaign101 ts).length = ts.length) ∧
    (∀ ts : List Trial201, (campaign201 ts).length = ts.length) := by
  refine ⟨?_, ?_, ?_, ?_⟩
  · intro t h1 h2
    simp [trialStep101, h1, h2]
  · intro t h1 h2
    simp [trialStep201, h1, h2]
  · intro ts
    simp [campaign101]
  · intro ts
    simp [campaign201]

/-- C4 witness: a concrete timed-out trial in each script, and a concrete
three-setting campaign. -/
theorem timeout_trial_reset_single_recovery_witness :
    trialStep101 ⟨false, true, ⟨false, none⟩⟩ =
      { outcomes := [Group.reset], reboots := 1, arms := 1, captures := 1 } ∧
    trialStep201 ⟨false, true, ⟨false, none⟩⟩ =
      { outcomes := [Group.reset], reboots := 1, arms := 1, captures := 1 } ∧
    (campaign101 [⟨false, true, ⟨false, none⟩⟩, ⟨false, false, ⟨true, none⟩⟩,
      ⟨true, false, ⟨false, none⟩⟩]).length = 3 :=
  ⟨timeout_trial_reset_single_recovery.1 ⟨false, true, ⟨false, none⟩⟩ rfl rfl,
   timeout_trial_reset_single_recovery.2.1 ⟨false, true, ⟨false, none⟩⟩ rfl rfl,
   timeout_trial_reset_single_recovery.2.2.1 _⟩

/-- C5 counterexample input: pre-check fails (trigger still high), capture
then completes and the target answers with the baseline counter 2500. -/
def c5Trial : Trial101 := ⟨true, false, ⟨true, some (196, 9, 0, 0)⟩⟩

/-- C5 (counterexample): the claim says a failed pre-check makes the
controller continue to the next setting *without attempting arm or capture*
for that trial. On the code the pre-check block has no `continue`: at this
concrete input the trial is recorded `reset` and recovered, but the loop
still arms and captures (both counts are nonzero) and even classifies the
post-capture response. -/
theorem precheck_fail_still_arms :
    trialStep101 c5Trial =
      { outcomes := [Group.reset, Group.normal], reboots := 1,
        arms := 1, captures := 1 } ∧
    (trialStep101 c5Trial).arms ≠ 0 ∧
    (trialStep101 c5Trial).captures ≠ 0 := by
  decide

/-- C5 (amended): a trial whose pre-check fails (trigger line already high)
is classified `reset` first and `reboot_flush` recovery runs for it, but
the controller does not skip the rest of the trial: it still arms and
captures once before moving to the next setting. -/
theorem precheck_fail_reset_then_arms :
    (∀ t : Trial101, t.adcState = true →
      (trialStep101 t).outcomes.head? = some Group.reset ∧
      1 ≤ (trialStep101 t).reboots ∧
      (trialStep101 t).arms = 1 ∧ (trialStep101 t).captures = 1) ∧
    (∀ t : Trial201, t.adcState = true →
      (trialStep201 t).outcomes.head? = some Group.reset ∧
      1 ≤ (trialStep201 t).reboots ∧
      (trialStep201 t).arms = 1 ∧ (trialStep201 t).captures = 1) := by
  constructor
  · intro t h
    refine ⟨?_, ?_, rfl, rfl⟩ <;> simp [trialStep101, h]
  · intro t h
    refine ⟨?_, ?_, rfl, rfl⟩ <;> simp [trialStep201, h]

/-- C5 witness: the amended theorem at a concrete failed-pre-check trial in
each script. -/
theorem precheck_fail_reset_then_arms_witness :
    (trialStep101 ⟨true, true, ⟨false, none⟩⟩).outcomes.head? =
      some Group.reset ∧
    (trialStep201 ⟨true, true, ⟨false, none⟩⟩).arms = 1 :=
  ⟨(precheck_fail_reset_then_arms.1 ⟨true, true, ⟨false, none⟩⟩ rfl).1,
   (precheck_fail_reset_then_arms.2 ⟨true, true, ⟨false, none⟩⟩ rfl).2.2.1⟩

/-- C6: after a completed capture (clean pre-check, no timeout), a response
with `valid=false` is classified `reset` with no `reboot_flush` recovery;
a response with `valid=true` but an absent payload records no outcome at
all (the loop `continue`s to the next setting). -/
theorem invalid_response_reset_no_recovery :
    (∀ t : Trial101, t.adcState = false → t.capTimeout = false →
      (t.resp.valid = false →
        trialStep101 t =
          { outcomes := [Group.reset], reboots := 0, arms := 1,
            captures := 1 }) ∧
      (t.resp.valid = true → t.resp.payload = none →
        trialStep101 t =
          { outcomes := [], reboots := 0, arms := 1, captures := 1 })) ∧
    (∀ t : Trial201, t.adcState = false → t.capTimeout = false →
      (t.resp.valid = false →
        trialStep201 t =
          { outcomes := [Group.reset], reboots := 0, arms := 1,
            captures := 1 }) ∧
      (t.resp.valid = true → t.resp.payload = none →
        trialStep201 t =
          { outcomes := [], reboots := 0, arms := 1, captures := 1 })) := by
  constructor
  · intro t h1 h2
    constructor
    · intro hv
      simp [trialStep101, h1, h2, hv]
    · intro hv hp
      simp [trialStep101, h1, h2, hv, hp]
  · intro t h1 h2
    constructor
    · intro hv
      simp [trialStep201, h1, h2, hv]
    · intro hv hp
      simp [trialStep201, h1, h2, hv, hp]

/-- C6 witness: a concrete invalid response and a concrete
valid-but-payload-absent response, in each script. -/
theorem invalid_response_reset_no_recovery_witness :
    trialStep101 ⟨false, false, ⟨false, none⟩⟩ =
      { outcomes := [Group.reset], reboots := 0, arms := 1, captures := 1 } ∧
    trialStep101 ⟨false, false, ⟨true, none⟩⟩ =
      { outcomes := [], reboots := 0, arms := 1, captures := 1 } ∧
    trialStep201 ⟨false, false, ⟨false, none⟩⟩ =
      { outcomes := [Group.reset], reboots := 0, arms := 1, captures := 1 } ∧
    trialStep201 ⟨false, false, ⟨true, none⟩⟩ =
      { outcomes := [], reboots := 0, arms := 1, captures := 1 } :=
  ⟨(invalid_response_reset_no_recovery.1 ⟨false, false, ⟨false, none⟩⟩
      rfl rfl).1 rfl,
   (invalid_response_reset_no_recovery.1 ⟨false, false, ⟨true, none⟩⟩
      rfl rfl).2 rfl rfl,
   (invalid_response_reset_no_recovery.2 ⟨false, false, ⟨false, none⟩⟩
      rfl rfl).1 rfl,
   (invalid_response_reset_no_recovery.2 ⟨false, false, ⟨true, none⟩⟩
      rfl rfl).2 rfl rfl⟩

instance (a : GlitchParameter) (v : Int) : Decidable (inBounds a v) := by
  unfold inBounds
  infer_instance

/-- Each axis contributes exactly its cardinality many values. -/
theorem axisValues_length (a : GlitchParameter) :
    (axisValues a).length = axisCard a := by
  rw [axisValues, List.length_map, List.length_range]

/-- Every enumerated axis value lies within the axis's inclusive bounds. -/
theorem axisValues_bounds (a : GlitchParameter) (hlh : a.low ≤ a.high)
    (hs : 0 < a.step) : ∀ v ∈ axisValues a, inBounds a v := by
  intro v hv
  rw [axisValues] at hv
  obtain ⟨i, hi, rfl⟩ := List.mem_map.mp hv
  rw [List.mem_range, axisCard] at hi
  constructor
  · have h0 : (0 : Int) ≤ (i : Int) * a.step :=
      mul_nonneg (Int.natCast_nonneg i) (le_of_lt hs)
    omega
  · have hq : (0 : Int) ≤ (a.high - a.low) / a.step :=
      Int.ediv_nonneg (by omega) (le_of_lt hs)
    have hi' : (i : Int) ≤ (a.high - a.low) / a.step := by omega
    have h2 : (i : Int) * a.step ≤ ((a.high - a.low) / a.step) * a.step :=
      mul_le_mul_of_nonneg_right hi' (le_of_lt hs)
    have h3 : ((a.high - a.low) / a.step) * a.step ≤ a.high - a.low :=
      Int.ediv_mul_le _ (ne_of_gt hs)
    omega

/-- One nesting level multiplies the count by the head axis's cardinality. -/
theorem glitch_values_cons_length (a : GlitchParameter)
    (rest : List GlitchParameter) :
    (glitch_values (a :: rest)).length =
      (axisValues a).length * (glitch_values rest).length := by
  rw [glitch_values]
  induction axisValues a with
  | nil => simp
  | cons v vs ih =>
    rw [List.flatMap_cons, List.length_append, ih, List.length_map,
      List.length_cons, Nat.succ_mul, Nat.add_comm]

/-- Cardinality of the nested product: one factor per axis. -/
theorem glitch_values_length (axes : List GlitchParameter) :
    (glitch_values axes).length = (axes.map axisCard).prod := by
  induction axes with
  | nil => rfl
  | cons a rest ih =>
    rw [glitch_values_cons_length, ih, axisValues_length, List.map_cons,
      List.prod_cons]

/-- Every produced setting assigns one in-bounds value to every axis, in
declaration order. -/
theorem glitch_values_bounds (axes : List GlitchParameter)
    (h : ∀ a ∈ axes, a.low ≤ a.high ∧ 0 < a.step) :
    ∀ s ∈ glitch_values axes, List.Forall₂ inBounds axes s := by
  induction axes with
  | nil =>
    intro s hs
    simp only [glitch_values, List.mem_singleton] at hs
    subst hs
    exact List.Forall₂.nil
  | cons a rest ih =>
    intro s hs
    simp only [glitch_values, List.mem_flatMap, List.mem_map] at hs
    obtain ⟨v, hv, t, ht, rfl⟩ := hs
    have ha := h a (by simp)
    exact List.Forall₂.cons (axisValues_bounds a ha.1 ha.2 v hv)
      (ih (fun b hb => h b (List.mem_cons_of_mem a hb)) t ht)

/-- C2: the sweep generator enumerates exactly the product over the axes of
`floor((high - low) / step) + 1` settings, each value within its axis's
inclusive bounds, in fixed nested order with the first axis varying slowest
(shown concretely on a two-axis grid); in particular width `[0, 20]` step 8
and offset `[0, 10]` step 1 give exactly 3 · 11 = 33 trials. -/
theorem sweep_cardinality_bounds :
    (∀ axes : List GlitchParameter,
      (glitch_values axes).length = (axes.map axisCard).prod) ∧
    (∀ axes : List GlitchParameter,
      (∀ a ∈ axes, a.low ≤ a.high ∧ 0 < a.step) →
      ∀ s ∈ glitch_values axes, List.Forall₂ inBounds axes s) ∧
    (axisCard ⟨0, 20, 8⟩ = 3 ∧ axisValues ⟨0, 20, 8⟩ = [0, 8, 16] ∧
      axisCard ⟨0, 10, 1⟩ = 11 ∧
      (glitch_values [⟨0, 20, 8⟩, ⟨0, 10, 1⟩]).length = 33) ∧
    glitch_values [⟨0, 1, 1⟩, ⟨0, 1, 1⟩] =
      [[0, 0], [0, 1], [1, 0], [1, 1]] := by
  exact ⟨glitch_values_length, glitch_values_bounds,
    ⟨by decide, by decide, by decide, by decide⟩, by decide⟩

/-- C2 witness: the bounds conjunct instantiated at scenario A's axes and a
concrete produced setting, with every hypothesis discharged by evaluation. -/
theorem sweep_cardinality_bounds_witness :
    (glitch_values [⟨0, 20, 8⟩, ⟨0, 10, 1⟩]).length =
      ([⟨0, 20, 8⟩, ⟨0, 10, 1⟩].map axisCard).prod ∧
    List.Forall₂ inBounds [⟨0, 20, 8⟩, ⟨0, 10, 1⟩] [16, 7] :=
  ⟨sweep_cardinality_bounds.1 [⟨0, 20, 8⟩, ⟨0, 10, 1⟩],
   sweep_cardinality_bounds.2.1 [⟨0, 20, 8⟩, ⟨0, 10, 1⟩] (by decide)
     [16, 7] (by decide)⟩

end CW
